import Mathlib

/-!
Verification development for the `vulkan-gram-schmidt` repository
(`GPUGramSchmidt` class, `vulkan-gram-schmidt.cpp` / `.hpp` / `.comp`).

The host-side program drives a Vulkan compute pipeline that runs the
classical Gram-Schmidt process on a GPU.  The definitions below are a
shallow embedding of the host code: the platform (Vulkan) is represented
by explicit environments recording what each `vk*` call would return, and
each C++ routine becomes a pure function of such an environment.  Machine
integers (`uint32_t`) are modelled as `Nat` with explicit `% 4294967296`
(i.e. mod 2^32) where wrap-around matters.
-/

/-! ## Device Registry (static member `GPUGramSchmidt::vk_busy_queues`)

`std::map<std::pair<uint32_t,uint32_t>, uint32_t>` with `operator[]`
defaulting to `0`.  Observations of the map go only through lookups, so
it is modelled as a total function from (gpu index, queue family index)
to the stored `uint32_t` counter. -/

abbrev Registry : Type := (Nat × Nat) → Nat

def rZero : Registry := fun _ => 0

/-- Constructor step 3.2.4: `vk_busy_queues[{gpu, family}] += count`
(`uint32_t` addition, hence mod 2^32). -/
def applyClaim (r : Registry) (key : Nat × Nat) (count : Nat) : Registry :=
  fun p => if p = key then (r key + count) % 4294967296 else r p

/-- Destructor line 345: `vk_busy_queues[{gpu, family}] -= count`
(`uint32_t` subtraction, i.e. addition of the two-complement, mod 2^32). -/
def releaseClaim (r : Registry) (key : Nat × Nat) (count : Nat) : Registry :=
  fun p =>
    if p = key then (r key + (4294967296 - count % 4294967296)) % 4294967296 else r p

/-! ## Queue family selection (constructor step 3)

Vulkan bit constants used by the selection loop. -/

def VK_QUEUE_GRAPHICS_BIT : Nat := 1
def VK_QUEUE_COMPUTE_BIT : Nat := 2

/-- One `VkQueueFamilyProperties` record (the two fields the code reads). -/
structure QueueFamily where
  queueFlags : Nat
  queueCount : Nat
deriving DecidableEq

instance : Inhabited QueueFamily := ⟨⟨0, 0⟩⟩

/-- One physical device: its `shaderFloat64` feature bit and its queue
family properties, in enumeration order. -/
structure Gpu where
  shaderFloat64 : Bool
  families : List QueueFamily
deriving DecidableEq

/-- Value of a C++ `bool` used as an operand of `&` (integral promotion). -/
def cppBool (p : Prop) [Decidable p] : Nat := if p then 1 else 0

/-- Line 141: the C++ condition
`vk_queue_properties[gpu_i][queue_family_i].queueFlags & VK_QUEUE_COMPUTE_BIT != 0`.
Because `!=` binds tighter than `&` in C++, this parses as
`queueFlags & (VK_QUEUE_COMPUTE_BIT != 0)`, i.e. `queueFlags & 1` - it in fact
tests the graphics bit (bit 0), not the compute bit. -/
def computeCheckCpp (flags : Nat) : Prop :=
  flags &&& cppBool (VK_QUEUE_COMPUTE_BIT ≠ 0) ≠ 0

instance (flags : Nat) : Decidable (computeCheckCpp flags) := by
  unfold computeCheckCpp; infer_instance

/-- Line 146: the C++ condition
`vk_queue_properties[gpu_i][queue_family_i].queueFlags & VK_QUEUE_GRAPHICS_BIT == 0`.
Because `==` binds tighter than `&`, this parses as
`queueFlags & (VK_QUEUE_GRAPHICS_BIT == 0)`, i.e. `queueFlags & 0`,
which is always zero, so the `break` it guards is never taken. -/
def graphicsBreakCpp (flags : Nat) : Prop :=
  flags &&& cppBool (VK_QUEUE_GRAPHICS_BIT = 0) ≠ 0

instance (flags : Nat) : Decidable (graphicsBreakCpp flags) := by
  unfold graphicsBreakCpp; infer_instance

/-- Constructor lines 140-148: the inner loop over the queue families of GPU
`g`, starting at family index `i`, with current selection `sel`
(`none` models `vk_selected_queue_family_i == 0U - 1`).  A matching family
overwrites the selection; the guarded `break` would end the scan. -/
def scanFamiliesAux (busy : Registry) (g : Nat) :
    Nat → Option Nat → List QueueFamily → Option Nat
  | _, sel, [] => sel
  | i, sel, f :: rest =>
    if computeCheckCpp f.queueFlags ∧ busy (g, i) < f.queueCount then
      if graphicsBreakCpp f.queueFlags then some i
      else scanFamiliesAux busy g (i + 1) (some i) rest
    else scanFamiliesAux busy g (i + 1) sel rest

/-- Constructor lines 128-156: the outer loop over physical devices.  A GPU
without `shaderFloat64` is skipped (line 132); once the inner scan has
selected a family, the outer loop records the claim and breaks (lines
150-155).  Returns the selected (gpu, family) pair. -/
def selectDeviceAux (busy : Registry) : Nat → List Gpu → Option (Nat × Nat)
  | _, [] => none
  | gi, g :: rest =>
    if g.shaderFloat64 = false then selectDeviceAux busy (gi + 1) rest
    else
      match scanFamiliesAux busy gi 0 none g.families with
      | some fi => some (gi, fi)
      | none => selectDeviceAux busy (gi + 1) rest

def selectDevice (busy : Registry) (gpus : List Gpu) : Option (Nat × Nat) :=
  selectDeviceAux busy 0 gpus

/-! ### The selection policy as the claim states it

Modelled from the spec: claim C1 / spec section 4.2 describe the intended
policy (also stated by the code comments at lines 121-123): pick the first
enumerated family on a double-precision GPU that supports compute and has
a free queue, preferring - and stopping at - a family that supports compute
exclusively (not also graphics).  This second definition exists only to be
compared with `selectDevice`, the faithful embedding of the code. -/

def specFamilyOk (busy : Registry) (g i : Nat) (f : QueueFamily) : Bool :=
  decide (f.queueFlags &&& VK_QUEUE_COMPUTE_BIT ≠ 0) &&
  decide (busy (g, i) < f.queueCount)

def specExclusiveCompute (f : QueueFamily) : Bool :=
  decide (f.queueFlags &&& VK_QUEUE_GRAPHICS_BIT = 0)

def specScanFamilies (busy : Registry) (g : Nat) (fams : List QueueFamily) : Option Nat :=
  match (List.range fams.length).find?
      (fun i => specFamilyOk busy g i (fams.getD i default) &&
                specExclusiveCompute (fams.getD i default)) with
  | some i => some i
  | none => (List.range fams.length).find? (fun i => specFamilyOk busy g i (fams.getD i default))

def selectDeviceSpecAux (busy : Registry) : Nat → List Gpu → Option (Nat × Nat)
  | _, [] => none
  | gi, g :: rest =>
    if g.shaderFloat64 = false then selectDeviceSpecAux busy (gi + 1) rest
    else
      match specScanFamilies busy gi g.families with
      | some fi => some (gi, fi)
      | none => selectDeviceSpecAux busy (gi + 1) rest

def selectDeviceSpec (busy : Registry) (gpus : List Gpu) : Option (Nat × Nat) :=
  selectDeviceSpecAux busy 0 gpus

/-! ## The constructor `GPUGramSchmidt::GPUGramSchmidt(bool enable_debug)`

The constructor locks the process-wide mutex `GPUGramSchmidt::constructor`,
creates the Vulkan instance, selects a device and queue family (claiming it
in the Device Registry), creates the long-lived Vulkan handles, and unlocks
the mutex.  Every `VK_VALIDATE(..., true)` call site unlocks the mutex and
throws a `runtime_error` carrying the call name and the `VkResult` code when
the call does not return `VK_SUCCESS`; the remaining `throw` statements
(lines 86, 91, 109, 158, 196) do not touch the mutex. -/

/-- Validated Vulkan calls made by the constructor, in program order.
`enumeratePhysicalDevices1/2` are the two calls at lines 118 and 120. -/
inductive CtorCall
  | enumerateInstanceVersion
  | createInstance
  | enumeratePhysicalDevices1
  | enumeratePhysicalDevices2
  | createDevice
  | createShaderModule
  | createDescriptorSetLayout
  | createPipelineLayout
  | createComputePipelines
  | createCommandPool
  | allocateCommandBuffers
  | createDescriptorPool
  | allocateDescriptorSets
  | createFence
deriving DecidableEq

/-- Exceptions the constructor can throw, by throw site.  `vkError call code`
is the `VK_VALIDATE` exception: its message carries the stringified call
(`#func`) and the numeric `VkResult` (`std::to_string(vk_result)`). -/
inductive CtorError
  | unsupportedPlatform
  | debugLayerMissing
  | noCapableDevice
  | shaderFileMissing
  | vkError (call : CtorCall) (code : Nat)
deriving DecidableEq

/-- Required API version `VK_MAKE_API_VERSION(0, 1, 2, 0)` (constructor line 57). -/
def vk_api_req_version : Nat := (1 <<< 22) ||| (2 <<< 12)

/-- Platform behaviour observed by one constructor call.  `callRes c` is the
`VkResult` (0 = `VK_SUCCESS`) that validated call `c` would return;
`versionProcAvailable` models `vkGetInstanceProcAddr` finding
`vkEnumerateInstanceVersion`; `shaderFileOk` models the `fstream` open of
`shader_folder + "/vulkan-gram-schmidt.spv"` succeeding. -/
structure ConstructorEnv where
  enableDebug : Bool
  versionProcAvailable : Bool
  vkApiVersion : Nat
  debugLayersPresent : Bool
  gpus : List Gpu
  shaderFileOk : Bool
  callRes : CtorCall → Nat

/-- The fields of a constructed `GPUGramSchmidt` object that outlive the
constructor and matter to the registry: `vk_selected_gpu_i`,
`vk_selected_queue_family_i`, `vk_selected_queues_count`. -/
structure SolverInstance where
  gpuIdx : Nat
  famIdx : Nat
  queuesCount : Nat
deriving DecidableEq

/-- Outcome of running the constructor: the normal return or the exception,
the state of the static mutex `GPUGramSchmidt::constructor` at exit
(`true` = still locked), and the Device Registry contents at exit. -/
structure CtorOutcome where
  result : Except CtorError SolverInstance
  mutexLocked : Bool
  registry : Registry

/-- The validated creation calls made after the shader file has been
loaded, in program order (constructor steps 6.2 to 13). -/
def ctorChain : List CtorCall :=
  [.createShaderModule, .createDescriptorSetLayout, .createPipelineLayout,
   .createComputePipelines, .createCommandPool, .allocateCommandBuffers,
   .createDescriptorPool, .allocateDescriptorSets, .createFence]

/-- Run a straight-line sequence of `VK_VALIDATE`d calls: the first call
not returning `VK_SUCCESS` aborts the sequence, reporting the call and its
result code. -/
def runValidatedCalls (env : ConstructorEnv) : List CtorCall → Option (CtorCall × Nat)
  | [] => none
  | c :: rest =>
    if env.callRes c ≠ 0 then some (c, env.callRes c) else runValidatedCalls env rest

/-- Constructor steps 4-13: what happens after the Device Registry claim
has been taken (selected pair `(g, f)`, registry already updated to
`busy2`): `vkCreateDevice` (validated), the shader file open (lines
194-196, a plain `throw` that leaves the mutex locked), then the
straight-line chain `ctorChain` of validated creation calls.  Every
`VK_VALIDATE(..., true)` failure unlocks the mutex and carries the call
name and result code; no branch touches the registry again; the normal
return (step 14) unlocks the mutex. -/
def postClaim (env : ConstructorEnv) (g f : Nat) (busy2 : Registry) : CtorOutcome :=
  if env.callRes .createDevice ≠ 0 then
    ⟨.error (.vkError .createDevice (env.callRes .createDevice)), false, busy2⟩
  else if env.shaderFileOk = false then
    ⟨.error .shaderFileMissing, true, busy2⟩
  else
    match runValidatedCalls env ctorChain with
    | some ck => ⟨.error (.vkError ck.1 ck.2), false, busy2⟩
    | none => ⟨.ok ⟨g, f, 1⟩, false, busy2⟩

/-- The full constructor body.  The mutex is locked on entry (step 1); plain
`throw` statements leave it locked, `VK_VALIDATE(..., true)` failures unlock
it, and the normal return unlocks it (step 14).  The claimed queue count is
`1` (line 152). -/
def construct (env : ConstructorEnv) (busy : Registry) : CtorOutcome :=
  if env.versionProcAvailable = false then
    ⟨.error .unsupportedPlatform, true, busy⟩
  else if env.callRes .enumerateInstanceVersion ≠ 0 then
    ⟨.error (.vkError .enumerateInstanceVersion (env.callRes .enumerateInstanceVersion)), false, busy⟩
  else if env.vkApiVersion < vk_api_req_version then
    ⟨.error .unsupportedPlatform, true, busy⟩
  else if env.enableDebug = true ∧ env.debugLayersPresent = false then
    ⟨.error .debugLayerMissing, true, busy⟩
  else if env.callRes .createInstance ≠ 0 then
    ⟨.error (.vkError .createInstance (env.callRes .createInstance)), false, busy⟩
  else if env.callRes .enumeratePhysicalDevices1 ≠ 0 then
    ⟨.error (.vkError .enumeratePhysicalDevices1 (env.callRes .enumeratePhysicalDevices1)), false, busy⟩
  else if env.callRes .enumeratePhysicalDevices2 ≠ 0 then
    ⟨.error (.vkError .enumeratePhysicalDevices2 (env.callRes .enumeratePhysicalDevices2)), false, busy⟩
  else
    match selectDevice busy env.gpus with
    | none => ⟨.error .noCapableDevice, true, busy⟩
    | some gf => postClaim env gf.1 gf.2 (applyClaim busy gf 1)

/-! ## The destructor `GPUGramSchmidt::~GPUGramSchmidt()` -/

/-- Registry effect of the destructor (line 345): decrement the busy counter
of the stored (gpu, family) pair by the stored queue count. -/
def destroyRegistry (inst : SolverInstance) (r : Registry) : Registry :=
  releaseClaim r (inst.gpuIdx, inst.famIdx) inst.queuesCount

/-- Destruction/teardown actions of `~GPUGramSchmidt` (lines 345-356). -/
inductive DtorStep
  | releaseBusyQueues
  | destroyFence
  | freeDescriptorSets
  | destroyDescriptorPool
  | freeCommandBuffers
  | destroyCommandPool
  | destroyPipeline
  | destroyPipelineLayout
  | destroyDescriptorSetLayout
  | destroyShaderModule
  | destroyDevice
  | destroyInstance
deriving DecidableEq

/-- The destructor body, in statement order (lines 345-356): the Device
Registry decrement comes first, then the handle teardown. -/
def destructorTrace : List DtorStep :=
  [.releaseBusyQueues, .destroyFence, .freeDescriptorSets, .destroyDescriptorPool,
   .freeCommandBuffers, .destroyCommandPool, .destroyPipeline, .destroyPipelineLayout,
   .destroyDescriptorSetLayout, .destroyShaderModule, .destroyDevice, .destroyInstance]

/-- The handle-teardown order named by claim C9 (fence first, instance
last), which is indeed the strict reverse of the acquisition order in the
constructor. -/
def handleTeardownOrder : List DtorStep :=
  [.destroyFence, .freeDescriptorSets, .destroyDescriptorPool,
   .freeCommandBuffers, .destroyCommandPool, .destroyPipeline, .destroyPipelineLayout,
   .destroyDescriptorSetLayout, .destroyShaderModule, .destroyDevice, .destroyInstance]

/-! ## Sequential construct/destroy sequences (claim C8) -/

/-- Run a sequence of constructions, each immediately followed by the
matching destruction, threading the Device Registry through; a constructor
exception aborts the whole sequence (it propagates to the caller). -/
def cdRun : List ConstructorEnv → Registry → Except CtorError Registry
  | [], r => .ok r
  | env :: rest, r =>
    match (construct env r).result with
    | .error e => .error e
    | .ok inst => cdRun rest (destroyRegistry inst (construct env r).registry)

/-- Final registry of `cdRun` (the registry is unchanged when the sequence
aborts before its first successful construction returns). -/
def cdFinal (envs : List ConstructorEnv) (r : Registry) : Registry :=
  match cdRun envs r with
  | .ok r2 => r2
  | .error _ => r

/-! ## `GPUGramSchmidt::run(Matrix &matrix, bool vectors_as_columns)`

`Matrix` is `std::vector<std::vector<double>>`.  The element type is kept
generic below: the host code only moves elements around, all arithmetic on
them happens on the device (the kernel is an external collaborator and is
modelled as an opaque transformation of the flattened buffer). -/

def VK_MEMORY_PROPERTY_HOST_VISIBLE_BIT : Nat := 2
def VK_MEMORY_PROPERTY_HOST_COHERENT_BIT : Nat := 4

/-- One `VkMemoryType`: its property flags and the index of the heap it
lives on. -/
structure MemoryType where
  propertyFlags : Nat
  heapIndex : Nat
deriving DecidableEq

instance : Inhabited MemoryType := ⟨⟨0, 0⟩⟩

/-- Validated (or failure-checked) Vulkan calls made by `run`, in program
order; the per-step calls carry the loop index `start_vec_i`. -/
inductive RunCall
  | createBuffer
  | bindBufferMemory
  | beginCommandBuffer (s : Nat)
  | endCommandBuffer (s : Nat)
  | queueSubmit (s : Nat)
  | waitForFences (s : Nat)
  | resetFences (s : Nat)
  | mapMemoryAfter
deriving DecidableEq

/-- Exceptions `run` can throw.  `vkError call code` is the
`VK_VALIDATE(..., false)` exception (call name + `VkResult`);
`allocFailed` is the plain throw at line 418
("Unable to allocate memory on your GPU."). -/
inductive RunError
  | vkError (call : RunCall) (code : Nat)
  | allocFailed
deriving DecidableEq

/-- Platform behaviour observed by one `run` call.  `allocRes i` is the
`VkResult` of `vkAllocateMemory` for memory type `i`; `callRes` covers the
other checked calls; `deviceTransform` is the net effect of the submitted
GPU work on the flattened buffer (the kernel contract is out of scope
here). -/
structure RunEnv (α : Type) where
  memoryTypes : List MemoryType
  memoryHeaps : List Nat
  memoryTypeBits : Nat
  reqSize : Nat
  allocRes : Nat → Nat
  callRes : RunCall → Nat
  deviceTransform : List α → List α

/-- Heap size backing a memory type (`memoryHeaps[memoryTypes[i].heapIndex].size`). -/
def heapSizeOf (heaps : List Nat) (t : MemoryType) : Nat := heaps.getD t.heapIndex 0

/-- Lines 399-403: the `continue` condition of the memory-type scan.  A type
is skipped when it is not host-visible, not host-coherent, its property
flags do not intersect the buffer's `memoryTypeBits`, or its heap is too
small. -/
def memTypeRejected (heaps : List Nat) (bits reqSize : Nat) (t : MemoryType) : Prop :=
  t.propertyFlags &&& VK_MEMORY_PROPERTY_HOST_VISIBLE_BIT = 0 ∨
  t.propertyFlags &&& VK_MEMORY_PROPERTY_HOST_COHERENT_BIT = 0 ∨
  t.propertyFlags &&& bits = 0 ∨
  heapSizeOf heaps t < reqSize

instance (heaps : List Nat) (bits reqSize : Nat) (t : MemoryType) :
    Decidable (memTypeRejected heaps bits reqSize t) := by
  unfold memTypeRejected; infer_instance

/-- Lines 397-416: scan memory types in index order; skip rejected ones; on
the first non-rejected type try `vkAllocateMemory` and stop if it succeeds,
otherwise keep scanning.  Returns the index the allocation came from. -/
def findMemoryTypeAux {α : Type} (env : RunEnv α) : Nat → List MemoryType → Option Nat
  | _, [] => none
  | i, t :: rest =>
    if memTypeRejected env.memoryHeaps env.memoryTypeBits env.reqSize t then
      findMemoryTypeAux env (i + 1) rest
    else if env.allocRes i = 0 then some i
    else findMemoryTypeAux env (i + 1) rest

def findMemoryType {α : Type} (env : RunEnv α) : Option Nat :=
  findMemoryTypeAux env 0 env.memoryTypes

/-- Qualification predicate in the claim's (C7) wording: host-visible,
host-coherent, compatible with the buffer's memory-type bitmask (embedded
as the code's test `propertyFlags & memoryTypeBits`), heap large enough. -/
def memTypeQualifies (heaps : List Nat) (bits reqSize : Nat) (t : MemoryType) : Bool :=
  decide (t.propertyFlags &&& VK_MEMORY_PROPERTY_HOST_VISIBLE_BIT ≠ 0) &&
  decide (t.propertyFlags &&& VK_MEMORY_PROPERTY_HOST_COHERENT_BIT ≠ 0) &&
  decide (t.propertyFlags &&& bits ≠ 0) &&
  decide (reqSize ≤ heapSizeOf heaps t)

/-- Index (counting from `i`) of the first list entry satisfying `p`. -/
def firstIdxWhere {α : Type} (p : α → Bool) : Nat → List α → Option Nat
  | _, [] => none
  | i, a :: rest => if p a then some i else firstIdxWhere p (i + 1) rest

/-- Index of the first qualifying memory type, per the claim's wording. -/
def firstQualifying {α : Type} (env : RunEnv α) : Option Nat :=
  firstIdxWhere (memTypeQualifies env.memoryHeaps env.memoryTypeBits env.reqSize) 0
    env.memoryTypes

/-! ### Host/device staging (lines 424-429 upload and 496-500 download) -/

/-- Row `i`, column `j` of the caller's matrix (`matrix[i][j]`; always
in bounds in the C++ for a square matrix). -/
def ent {α : Type} [Inhabited α] (M : List (List α)) (i j : Nat) : α :=
  (M.getD i []).getD j default

/-- Lines 426-428: `payload[i * n + j] = vectors_as_columns ? matrix[j][i]
: matrix[i][j]` for all `i, j < n`.  The double loop writes each flattened
position `k = i*n + j` exactly once, so it is rendered as the list whose
entry at `k` is the value written there (`i = k / n`, `j = k % n`). -/
def upload {α : Type} [Inhabited α] (n : Nat) (M : List (List α)) (cols : Bool) : List α :=
  (List.range (n * n)).map (fun k =>
    if cols then ent M (k % n) (k / n) else ent M (k / n) (k % n))

/-- Lines 497-499: `matrix[cols ? j : i][cols ? i : j] = payload[i * n + j]`
for all `i, j < n`.  Cell `(a, b)` of the resulting matrix therefore holds
`payload[(cols ? b : a) * n + (cols ? a : b)]`. -/
def download {α : Type} [Inhabited α] (n : Nat) (payload : List α) (cols : Bool) :
    List (List α) :=
  (List.range n).map (fun a => (List.range n).map (fun b =>
    payload.getD ((if cols then b else a) * n + (if cols then a else b)) default))

/-! ### The step dispatch loop (lines 474-493) -/

/-- Dispatch parameters of one step: the push constants
`{dimension, vector_count, pivot_index}` (three `uint32_t`) and the
`groupCountX` passed to `vkCmdDispatch`. -/
structure Dispatch where
  dim : Nat
  vecCount : Nat
  pivot : Nat
  groupsX : Nat
deriving DecidableEq

/-- Step `s` of the loop: push constants
`{(uint32_t)matrix.size(), (uint32_t)matrix.size(), start_vec_i}` (line 474,
483) and `vkCmdDispatch(..., (n - s) / 32 + ((n - s) % 32 > 0), 1, 1)`
(line 485). -/
def mkDispatch (n s : Nat) : Dispatch :=
  ⟨n % 4294967296, n % 4294967296, s, (n - s) / 32 + (if (n - s) % 32 > 0 then 1 else 0)⟩

/-- Timeout passed to `vkWaitForFences` at line 491, in nanoseconds
(10000000 ns = 10 ms), a literal constant independent of the matrix. -/
def fenceTimeoutNs : Nat := 10000000

/-- Host-visible events of the step loop. -/
inductive StepEvent
  | submit (d : Dispatch)
  | wait (timeoutNs : Nat)
  | reset
deriving DecidableEq

/-- One iteration block of the loop for steps `s, s+1, ..., s+fuel-1`
(`fuel = n - s` at the top-level call).  Each step begins/records/ends the
command buffer, submits it with the fence, waits on the fence with the
10 ms timeout, and resets the fence; any non-`VK_SUCCESS` result throws
via `VK_VALIDATE(..., false)` and ends the loop. -/
def stepLoopAux (res : RunCall → Nat) (n : Nat) :
    Nat → Nat → List StepEvent × Option RunError
  | 0, _ => ([], none)
  | fuel + 1, s =>
    if res (.beginCommandBuffer s) ≠ 0 then
      ([], some (.vkError (.beginCommandBuffer s) (res (.beginCommandBuffer s))))
    else if res (.endCommandBuffer s) ≠ 0 then
      ([], some (.vkError (.endCommandBuffer s) (res (.endCommandBuffer s))))
    else if res (.queueSubmit s) ≠ 0 then
      ([], some (.vkError (.queueSubmit s) (res (.queueSubmit s))))
    else if res (.waitForFences s) ≠ 0 then
      ([.submit (mkDispatch n s), .wait fenceTimeoutNs],
       some (.vkError (.waitForFences s) (res (.waitForFences s))))
    else if res (.resetFences s) ≠ 0 then
      ([.submit (mkDispatch n s), .wait fenceTimeoutNs, .reset],
       some (.vkError (.resetFences s) (res (.resetFences s))))
    else
      (.submit (mkDispatch n s) :: .wait fenceTimeoutNs :: .reset ::
         (stepLoopAux res n fuel (s + 1)).1,
       (stepLoopAux res n fuel (s + 1)).2)

/-- The loop `for (start_vec_i = 0; start_vec_i < matrix.size(); ...)`. -/
def stepLoop (res : RunCall → Nat) (n : Nat) : List StepEvent × Option RunError :=
  stepLoopAux res n n 0

/-- Dispatches actually submitted to the queue, in submission order. -/
def dispatchesOf (evts : List StepEvent) : List Dispatch :=
  evts.filterMap (fun e => match e with | .submit d => some d | _ => none)

/-- Count of submissions in an event list. -/
def countSubmits (evts : List StepEvent) : Nat :=
  evts.countP (fun e => match e with | .submit _ => true | _ => false)

/-- Expected event block sequence of a fully successful loop over steps
`s, ..., s+fuel-1`: per step, submit, fence wait (10 ms), fence reset -
the reset of step `s` precedes the submit of step `s+1`. -/
def okTrace (n : Nat) : Nat → Nat → List StepEvent
  | 0, _ => []
  | fuel + 1, s =>
    .submit (mkDispatch n s) :: .wait fenceTimeoutNs :: .reset :: okTrace n fuel (s + 1)

/-! ### The whole of `run` -/

/-- Outcome of `run`: the exception (if any), the step-loop events, the
caller's matrix at exit, and the memory type the buffer memory came from. -/
structure RunResult (α : Type) where
  error : Option RunError
  events : List StepEvent
  matrix : List (List α)
  memTypeIdx : Option Nat

/-- The body of `run`: create the buffer (validated), find and allocate
memory (plain throw when the scan fails), bind (validated), upload the
matrix, run the step loop, then map (validated) and download the device
buffer - as transformed by the submitted GPU work - back into the caller's
matrix in the same orientation. -/
def runModel {α : Type} [Inhabited α] (env : RunEnv α) (M : List (List α)) (cols : Bool) :
    RunResult α :=
  if env.callRes .createBuffer ≠ 0 then
    ⟨some (.vkError .createBuffer (env.callRes .createBuffer)), [], M, none⟩
  else
    match findMemoryType env with
    | none => ⟨some .allocFailed, [], M, none⟩
    | some ti =>
      if env.callRes .bindBufferMemory ≠ 0 then
        ⟨some (.vkError .bindBufferMemory (env.callRes .bindBufferMemory)), [], M, some ti⟩
      else
        match stepLoop env.callRes M.length with
        | (evts, some e) => ⟨some e, evts, M, some ti⟩
        | (evts, none) =>
          if env.callRes .mapMemoryAfter ≠ 0 then
            ⟨some (.vkError .mapMemoryAfter (env.callRes .mapMemoryAfter)), evts, M, some ti⟩
          else
            ⟨none, evts,
             download M.length (env.deviceTransform (upload M.length M cols)) cols, some ti⟩

/-! ## Concrete platform environments used as test inputs -/

/-- One double-precision GPU whose family 0 is compute-only
(`queueFlags = VK_QUEUE_COMPUTE_BIT`) and whose family 1 supports both
compute and graphics (`queueFlags = 3`); one free queue each. -/
def gpusC1 : List Gpu := [⟨true, [⟨2, 1⟩, ⟨3, 1⟩]⟩]

/-- One double-precision GPU with a single compute-only family with four
free queues. -/
def gpusC1b : List Gpu := [⟨true, [⟨2, 4⟩]⟩]

/-- One double-precision GPU with two identical compute+graphics families. -/
def gpusC1c : List Gpu := [⟨true, [⟨3, 1⟩, ⟨3, 1⟩]⟩]

/-- A platform where every constructor step succeeds. -/
def envOK : ConstructorEnv where
  enableDebug := false
  versionProcAvailable := true
  vkApiVersion := vk_api_req_version
  debugLayersPresent := true
  gpus := [⟨true, [⟨3, 1⟩]⟩]
  shaderFileOk := true
  callRes := fun _ => 0

/-- A Vulkan 1.0 platform: `vkEnumerateInstanceVersion` is unavailable. -/
def envNoVer : ConstructorEnv := { envOK with versionProcAvailable := false }

/-- A platform reporting an instance version below 1.2. -/
def envOldApi : ConstructorEnv := { envOK with vkApiVersion := 0 }

/-- A platform with no physical device at all. -/
def envNoGpu : ConstructorEnv := { envOK with gpus := [] }

/-- A platform where the compiled shader file is missing. -/
def envNoShader : ConstructorEnv := { envOK with shaderFileOk := false }

/-- A platform where `vkCreateDevice` fails with `VkResult` 5 and every
other call succeeds. -/
def envDevFail : ConstructorEnv :=
  { envOK with callRes := fun c => if c = CtorCall.createDevice then 5 else 0 }

/-! ## Claim C1 -/

/-- Claim C1: the constructor is claimed to select the first enumerated
family on a double-precision GPU that supports compute and has a free
queue, preferring (and stopping at) an exclusively-compute family.  The
code does not: because of C++ operator precedence, line 141 tests
`queueFlags & 1` (the graphics bit) instead of the compute bit, and the
early-exit test of line 146 reduces to `queueFlags & 0`, which never
fires.  On `gpusC1` the code selects family 1 where the claimed policy
selects the exclusively-compute family 0; on `gpusC1b` (compute-only
family only) the code finds nothing at all and the constructor throws; on
`gpusC1c` the code returns the last matching family, not the first. -/
theorem c1_queue_selection_precedence_bug :
    selectDevice rZero gpusC1 = some (0, 1) ∧
    selectDeviceSpec rZero gpusC1 = some (0, 0) ∧
    selectDevice rZero gpusC1b = none ∧
    selectDeviceSpec rZero gpusC1b = some (0, 0) ∧
    selectDevice rZero gpusC1c = some (0, 1) ∧
    selectDeviceSpec rZero gpusC1c = some (0, 0) := by
  decide

/-! ## Claim C4 -/

/-- Claim C4: every exit of the constructor is claimed to leave the
process-wide mutex unlocked.  The code violates this: the plain `throw`
statements (Vulkan version too old at lines 86/91, no capable device at
line 158, missing shader file at line 196) leave
`GPUGramSchmidt::constructor` locked, so any later construction blocks
forever, while the `VK_VALIDATE(..., true)` failure paths and the normal
return do unlock it. -/
theorem c4_constructor_mutex_left_locked :
    (construct envNoVer rZero).result = .error .unsupportedPlatform ∧
    (construct envNoVer rZero).mutexLocked = true ∧
    (construct envOldApi rZero).mutexLocked = true ∧
    (construct envNoGpu rZero).result = .error .noCapableDevice ∧
    (construct envNoGpu rZero).mutexLocked = true ∧
    (construct envNoShader rZero).mutexLocked = true ∧
    (construct envOK rZero).mutexLocked = false ∧
    (construct envDevFail rZero).mutexLocked = false :=
  ⟨rfl, rfl, rfl, rfl, rfl, rfl, rfl, rfl⟩

/-! ## Claim C9 -/

/-- Claim C9 (counterexample): the destructor does not release the Device
Registry claim last - `destructorTrace`, the literal statement order of
`~GPUGramSchmidt`, is not the claimed handle teardown followed by the
registry release. -/
theorem c9_release_not_last_counterexample :
    destructorTrace ≠ handleTeardownOrder ++ [DtorStep.releaseBusyQueues] := by
  decide

/-- Claim C9 (amended): the destructor releases the Device Registry claim
FIRST and then destroys every owned handle in strict reverse order of
acquisition (fence, descriptor set, descriptor pool, command buffer,
command pool, pipeline, pipeline layout, descriptor-set layout, shader
module, logical device, instance). -/
theorem c9_teardown_order_amended :
    destructorTrace = DtorStep.releaseBusyQueues :: handleTeardownOrder := by
  decide

/-! ## Claim C3 -/

/-- Claim C3 (counterexample): with every step up to device creation
succeeding and `vkCreateDevice` failing with code 5, construction aborts
with the operation name and code, but the Device Registry claim taken at
step 3.2.4 is NOT released: the busy counter of the selected pair (0, 0)
stays at 1 instead of returning to 0 as the claim states. -/
theorem c3_claim_not_released_counterexample :
    (construct envDevFail rZero).result = .error (.vkError .createDevice 5) ∧
    (construct envDevFail rZero).registry (0, 0) ≠ 0 :=
  ⟨rfl, by decide⟩

/-! ## Claim C7 -/

theorem memTypeQualifies_iff (heaps : List Nat) (bits reqSize : Nat) (t : MemoryType) :
    memTypeQualifies heaps bits reqSize t = true ↔ ¬ memTypeRejected heaps bits reqSize t := by
  unfold memTypeQualifies memTypeRejected
  simp [not_or, Nat.not_lt, and_assoc]

theorem findMemoryTypeAux_eq_firstIdx {α : Type} (env : RunEnv α)
    (halloc : ∀ i, env.allocRes i = 0) :
    ∀ (ts : List MemoryType) (i : Nat),
      findMemoryTypeAux env i ts =
        firstIdxWhere (memTypeQualifies env.memoryHeaps env.memoryTypeBits env.reqSize) i ts := by
  intro ts
  induction ts with
  | nil => intro i; rfl
  | cons t rest ih =>
    intro i
    unfold findMemoryTypeAux firstIdxWhere
    by_cases hrej : memTypeRejected env.memoryHeaps env.memoryTypeBits env.reqSize t
    · rw [if_pos hrej, ih (i + 1),
        if_neg (by simp [memTypeQualifies_iff, hrej])]
    · rw [if_neg hrej, if_pos (halloc i),
        if_pos ((memTypeQualifies_iff env.memoryHeaps env.memoryTypeBits env.reqSize t).mpr hrej)]

/-- Claim C7: with the platform's `vkAllocateMemory` succeeding, `run`
allocates from the first memory type that is host-visible, host-coherent,
compatible with the buffer's memory-type bitmask and whose heap is large
enough (`firstQualifying`, the claim's wording); and when no memory type
qualifies, `run` throws the allocation error before any kernel dispatch
(no step-loop events at all). -/
theorem c7_memory_type_scan {α : Type} [Inhabited α] (env : RunEnv α) (M : List (List α))
    (cols : Bool) (halloc : ∀ i, env.allocRes i = 0)
    (hcb : env.callRes .createBuffer = 0) :
    findMemoryType env = firstQualifying env ∧
    (firstQualifying env = none →
      (runModel env M cols).error = some .allocFailed ∧ (runModel env M cols).events = []) := by
  have heq : findMemoryType env = firstQualifying env :=
    findMemoryTypeAux_eq_firstIdx env halloc env.memoryTypes 0
  refine ⟨heq, fun hnone => ?_⟩
  unfold runModel
  rw [if_neg (by simp [hcb]), heq, hnone]
  exact ⟨rfl, rfl⟩

/-- A one-type platform whose single memory type is device-local only
(flags = 1: neither host-visible nor host-coherent), so nothing
qualifies. -/
def env7 : RunEnv Nat where
  memoryTypes := [⟨1, 0⟩]
  memoryHeaps := [1024]
  memoryTypeBits := 1
  reqSize := 32
  allocRes := fun _ => 0
  callRes := fun _ => 0
  deviceTransform := fun payload => payload

theorem c7_memory_type_scan_witness :
    findMemoryType env7 = none ∧
    (runModel env7 [[1, 2], [3, 4]] true).error = some RunError.allocFailed ∧
    (runModel env7 [[1, 2], [3, 4]] true).events = [] := by
  have h := c7_memory_type_scan env7 [[1, 2], [3, 4]] true (fun _ => rfl) rfl
  exact ⟨by rw [h.1]; decide, (h.2 (by decide)).1, (h.2 (by decide)).2⟩

/-! ### Claim C3, amended -/

theorem runValidatedCalls_some (env : ConstructorEnv) :
    ∀ (cs : List CtorCall) (c : CtorCall) (k : Nat),
      runValidatedCalls env cs = some (c, k) → k = env.callRes c ∧ k ≠ 0 := by
  intro cs
  induction cs with
  | nil => intro c k h; simp [runValidatedCalls] at h
  | cons a rest ih =>
    intro c k h
    unfold runValidatedCalls at h
    by_cases ha : env.callRes a ≠ 0
    · rw [if_pos ha] at h
      obtain ⟨h1, h2⟩ := Prod.mk.injEq .. ▸ Option.some.inj h
      subst h1
      exact ⟨h2.symm, h2 ▸ ha⟩
    · rw [if_neg ha] at h
      exact ih c k h

theorem postClaim_vkError (env : ConstructorEnv) (g f : Nat) (b : Registry)
    (c : CtorCall) (k : Nat)
    (h : (postClaim env g f b).result = .error (.vkError c k)) :
    (postClaim env g f b).mutexLocked = false ∧ (postClaim env g f b).registry = b ∧
    k = env.callRes c ∧ k ≠ 0 := by
  unfold postClaim at h ⊢
  split_ifs at h ⊢ with hd hs
  · simp only [Except.error.injEq, CtorError.vkError.injEq] at h
    obtain ⟨h1, h2⟩ := h
    subst h1
    exact ⟨rfl, rfl, h2.symm, h2 ▸ hd⟩
  · simp at h
  · rcases hrv : runValidatedCalls env ctorChain with _ | ck
    · simp [hrv] at h
    · have hsome := runValidatedCalls_some env ctorChain ck.1 ck.2
        (by rw [hrv, Prod.mk.eta])
      rw [hrv] at h
      simp only [Except.error.injEq, CtorError.vkError.injEq] at h
      obtain ⟨h1, h2⟩ := h
      subst h1
      exact ⟨rfl, rfl, h2 ▸ hsome.1, h2 ▸ hsome.2⟩

theorem construct_eq_postClaim (env : ConstructorEnv) (r : Registry) (gf : Nat × Nat)
    (h1 : ¬ env.versionProcAvailable = false)
    (h2 : ¬ env.callRes .enumerateInstanceVersion ≠ 0)
    (h3 : ¬ env.vkApiVersion < vk_api_req_version)
    (h4 : ¬ (env.enableDebug = true ∧ env.debugLayersPresent = false))
    (h5 : ¬ env.callRes .createInstance ≠ 0)
    (h6 : ¬ env.callRes .enumeratePhysicalDevices1 ≠ 0)
    (h7 : ¬ env.callRes .enumeratePhysicalDevices2 ≠ 0)
    (hsel : selectDevice r env.gpus = some gf) :
    construct env r = postClaim env gf.1 gf.2 (applyClaim r gf 1) := by
  unfold construct
  rw [if_neg h1, if_neg h2, if_neg h3, if_neg h4, if_neg h5, if_neg h6, if_neg h7, hsel]

/-- Claim C3 (amended): when the constructor reaches the Device Registry
claim (a device/family pair was selected) and then any validated creation
call fails, construction aborts with an error carrying the failing
operation's name and the platform's numeric status code and the
constructor mutex is unlocked - but the claim already taken is NOT
released: the busy-queue counter of the selected pair remains incremented
(old value + 1 mod 2^32) instead of being decremented back. -/
theorem c3_creation_failure_amended (env : ConstructorEnv) (r : Registry) (gf : Nat × Nat)
    (c : CtorCall) (k : Nat)
    (hver : env.versionProcAvailable = true)
    (henum : env.callRes .enumerateInstanceVersion = 0)
    (hapi : ¬ env.vkApiVersion < vk_api_req_version)
    (hdbg : env.enableDebug = false)
    (hci : env.callRes .createInstance = 0)
    (hep1 : env.callRes .enumeratePhysicalDevices1 = 0)
    (hep2 : env.callRes .enumeratePhysicalDevices2 = 0)
    (hsel : selectDevice r env.gpus = some gf)
    (herr : (construct env r).result = .error (.vkError c k)) :
    (construct env r).mutexLocked = false ∧
    (construct env r).registry gf = (r gf + 1) % 4294967296 ∧
    k = env.callRes c ∧ k ≠ 0 := by
  have hc : construct env r = postClaim env gf.1 gf.2 (applyClaim r gf 1) :=
    construct_eq_postClaim env r gf (by simp [hver]) (by simp [henum]) hapi
      (by simp [hdbg]) (by simp [hci]) (by simp [hep1]) (by simp [hep2]) hsel
  rw [hc] at herr ⊢
  obtain ⟨hm, hreg, hk, hk0⟩ :=
    postClaim_vkError env gf.1 gf.2 (applyClaim r gf 1) c k herr
  refine ⟨hm, ?_, hk, hk0⟩
  rw [hreg]
  unfold applyClaim
  simp

theorem c3_creation_failure_amended_witness :
    (construct envDevFail rZero).mutexLocked = false ∧
    (construct envDevFail rZero).registry (0, 0) = (rZero (0, 0) + 1) % 4294967296 ∧
    (5 : Nat) = envDevFail.callRes .createDevice ∧ (5 : Nat) ≠ 0 :=
  c3_creation_failure_amended envDevFail rZero (0, 0) .createDevice 5
    rfl (by decide) (by decide) rfl (by decide) (by decide) (by decide) (by decide) rfl

/-! ## Claim C8 -/

theorem postClaim_registry_eq (env : ConstructorEnv) (g f : Nat) (b : Registry) :
    (postClaim env g f b).registry = b := by
  unfold postClaim
  split_ifs
  · rfl
  · rfl
  · rcases runValidatedCalls env ctorChain with _ | ck <;> rfl

theorem construct_ok (env : ConstructorEnv) (r : Registry) (inst : SolverInstance)
    (h : (construct env r).result = .ok inst) :
    ∃ gf : Nat × Nat, selectDevice r env.gpus = some gf ∧ inst = ⟨gf.1, gf.2, 1⟩ ∧
      (construct env r).registry = applyClaim r gf 1 := by
  unfold construct at h
  split_ifs at h with h1 h2 h3 h4 h5 h6 h7
  rcases hsel : selectDevice r env.gpus with _ | gf
  · rw [hsel] at h; simp at h
  · rw [hsel] at h
    have hc : construct env r = postClaim env gf.1 gf.2 (applyClaim r gf 1) :=
      construct_eq_postClaim env r gf h1 h2 h3 h4 h5 h6 h7 hsel
    have hinst : inst = ⟨gf.1, gf.2, 1⟩ := by
      unfold postClaim at h
      split_ifs at h
      rcases hrv : runValidatedCalls env ctorChain with _ | ck
      · rw [hrv] at h
        exact (Except.ok.inj h).symm
      · rw [hrv] at h
        simp at h
    exact ⟨gf, rfl, hinst, by rw [hc, postClaim_registry_eq]⟩

theorem release_apply (r : Registry) (p : Nat × Nat) (hb : r p < 4294967296) :
    releaseClaim (applyClaim r p 1) p 1 = r := by
  funext q
  unfold releaseClaim applyClaim
  by_cases hq : q = p
  · subst hq
    rw [if_pos rfl, if_pos rfl]
    omega
  · rw [if_neg hq, if_neg hq]

theorem cdRun_cons_err (env : ConstructorEnv) (rest : List ConstructorEnv) (r : Registry)
    (e : CtorError) (h : (construct env r).result = .error e) :
    cdRun (env :: rest) r = .error e := by
  unfold cdRun
  rw [h]

theorem cdRun_cons_ok (env : ConstructorEnv) (rest : List ConstructorEnv) (r : Registry)
    (inst : SolverInstance) (h : (construct env r).result = .ok inst) :
    cdRun (env :: rest) r = cdRun rest (destroyRegistry inst (construct env r).registry) := by
  conv_lhs => unfold cdRun
  rw [h]

/-- Claim C8: from a registry with in-range (`uint32_t`) counters, any
sequence of successful construct-then-destroy rounds leaves every
(device, family) busy counter exactly where it started: each successful
construction increments the selected pair's counter by the claimed queue
count (1) and the matching destruction decrements the same pair by the
same amount.  Starting from the empty registry, every counter is back at
zero. -/
theorem c8_sequential_registry_restored (envs : List ConstructorEnv) (r : Registry)
    (hb : ∀ p, r p < 4294967296) (hok : (cdRun envs r).isOk = true) :
    ∀ p, cdFinal envs r p = r p := by
  induction envs generalizing r with
  | nil => intro p; rfl
  | cons env rest ih =>
    cases hres : (construct env r).result with
    | error e =>
      rw [cdRun_cons_err env rest r e hres] at hok
      simp [Except.isOk, Except.toBool] at hok
    | ok inst =>
      obtain ⟨gf, hsel, hinst, hreg⟩ := construct_ok env r inst hres
      have hround : destroyRegistry inst (construct env r).registry = r := by
        rw [hinst, hreg]
        unfold destroyRegistry
        simp only [Prod.mk.eta]
        exact release_apply r gf (hb gf)
      have hcd : cdRun (env :: rest) r = cdRun rest r := by
        rw [cdRun_cons_ok env rest r inst hres, hround]
      intro p
      have hok2 : (cdRun rest r).isOk = true := by rw [← hcd]; exact hok
      have hfin := ih r hb hok2 p
      unfold cdFinal at hfin ⊢
      rw [hcd]
      exact hfin

theorem c8_sequential_registry_restored_witness :
    cdFinal [envOK, envOK] rZero (0, 0) = rZero (0, 0) :=
  c8_sequential_registry_restored [envOK, envOK] rZero
    (fun _ => by simp only [rZero]; omega) (by decide) (0, 0)

/-! ## Claims C5 and C10: the step dispatch loop -/

/-- Every checked call of step `s` returned `VK_SUCCESS`. -/
def stepOk (res : RunCall → Nat) (s : Nat) : Prop :=
  res (.beginCommandBuffer s) = 0 ∧ res (.endCommandBuffer s) = 0 ∧
  res (.queueSubmit s) = 0 ∧ res (.waitForFences s) = 0 ∧ res (.resetFences s) = 0

instance (res : RunCall → Nat) (s : Nat) : Decidable (stepOk res s) := by
  unfold stepOk; infer_instance

theorem stepLoopAux_allOk (res : RunCall → Nat) (n : Nat) :
    ∀ (fuel s : Nat), (∀ j, j < fuel → stepOk res (s + j)) →
      stepLoopAux res n fuel s = (okTrace n fuel s, none) := by
  intro fuel
  induction fuel with
  | zero => intro s h; rfl
  | succ fuel ih =>
    intro s h
    obtain ⟨hb, he, hq, hw, hr⟩ := h 0 (Nat.succ_pos fuel)
    rw [Nat.add_zero] at hb he hq hw hr
    have hrest : ∀ j, j < fuel → stepOk res (s + 1 + j) := by
      intro j hj
      have := h (j + 1) (by omega)
      rwa [show s + (j + 1) = s + 1 + j by omega] at this
    unfold stepLoopAux okTrace
    rw [if_neg (by simp [hb]), if_neg (by simp [he]), if_neg (by simp [hq]),
      if_neg (by simp [hw]), if_neg (by simp [hr]), ih (s + 1) hrest]

theorem dispatchesOf_okTrace (n : Nat) :
    ∀ (fuel s : Nat),
      dispatchesOf (okTrace n fuel s) = (List.range fuel).map (fun j => mkDispatch n (s + j)) := by
  intro fuel
  induction fuel with
  | zero => intro s; rfl
  | succ fuel ih =>
    intro s
    unfold okTrace
    rw [List.range_succ_eq_map, List.map_cons, List.map_map]
    unfold dispatchesOf
    rw [List.filterMap_cons, List.filterMap_cons, List.filterMap_cons]
    simp only [Nat.add_zero]
    have := ih (s + 1)
    unfold dispatchesOf at this
    rw [this]
    congr 1
    apply List.map_congr_left
    intro a _
    simp only [Function.comp_apply]
    congr 1
    omega

theorem wait_timeout_aux (res : RunCall → Nat) (n : Nat) :
    ∀ (fuel s t : Nat),
      StepEvent.wait t ∈ (stepLoopAux res n fuel s).1 → t = fenceTimeoutNs := by
  intro fuel
  induction fuel with
  | zero => intro s t ht; simp [stepLoopAux] at ht
  | succ fuel ih =>
    intro s t ht
    unfold stepLoopAux at ht
    split_ifs at ht
    · simp at ht
    · simp at ht
    · simp at ht
    · simp only [List.mem_cons, List.mem_singleton] at ht
      rcases ht with h | h | h
      · exact absurd h (by simp)
      · exact (StepEvent.wait.inj h)
      · simp at h
    · simp only [List.mem_cons, List.mem_singleton] at ht
      rcases ht with h | h | h | h
      · exact absurd h (by simp)
      · exact (StepEvent.wait.inj h)
      · exact absurd h (by simp)
      · simp at h
    · simp only [List.mem_cons] at ht
      rcases ht with h | h | h | h
      · exact absurd h (by simp)
      · exact (StepEvent.wait.inj h)
      · exact absurd h (by simp)
      · exact ih (s + 1) t h

theorem stepLoopAux_wait_fail (res : RunCall → Nat) (n : Nat) :
    ∀ (fuel s k : Nat), s ≤ k → k < s + fuel →
      (∀ j, s ≤ j → j < k → stepOk res j) →
      res (.beginCommandBuffer k) = 0 → res (.endCommandBuffer k) = 0 →
      res (.queueSubmit k) = 0 → res (.waitForFences k) ≠ 0 →
      (stepLoopAux res n fuel s).2 =
        some (.vkError (.waitForFences k) (res (.waitForFences k))) ∧
      countSubmits (stepLoopAux res n fuel s).1 = k - s + 1 := by
  intro fuel
  induction fuel with
  | zero => intro s k h1 h2; omega
  | succ fuel ih =>
    intro s k hsk hk hpre hb he hq hw
    by_cases hks : s = k
    · subst hks
      unfold stepLoopAux
      rw [if_neg (by simp [hb]), if_neg (by simp [he]), if_neg (by simp [hq]), if_pos hw]
      refine ⟨rfl, ?_⟩
      unfold countSubmits
      simp [List.countP_cons]
    · have hsk2 : s < k := by omega
      obtain ⟨hb2, he2, hq2, hw2, hr2⟩ := hpre s (le_refl s) hsk2
      have hih := ih (s + 1) k (by omega) (by omega)
        (fun j hj1 hj2 => hpre j (by omega) hj2) hb he hq hw
      unfold stepLoopAux
      rw [if_neg (by simp [hb2]), if_neg (by simp [he2]), if_neg (by simp [hq2]),
        if_neg (by simp [hw2]), if_neg (by simp [hr2])]
      refine ⟨hih.1, ?_⟩
      have h2 := hih.2
      unfold countSubmits at h2 ⊢
      simp [List.countP_cons, h2]
      omega

/-- Claim C10: in every step of `run`, after submitting the command buffer
the host waits on the fence with the fixed 10000000 ns (10 ms) timeout -
every wait event carries this constant, whatever the matrix size `n`; a
wait that does not return `VK_SUCCESS` throws (the step loop does not
continue: exactly `k + 1` submissions ever happened when step `k`'s wait
failed); and on an all-successful run the fence is reset after each wait
and before the next step's submission (`okTrace`). -/
theorem c10_fence_wait_semantics (n : Nat) (res : RunCall → Nat) :
    fenceTimeoutNs = 10000000 ∧
    (∀ t, StepEvent.wait t ∈ (stepLoop res n).1 → t = fenceTimeoutNs) ∧
    (∀ k, k < n → (∀ j, j < k → stepOk res j) →
      res (.beginCommandBuffer k) = 0 → res (.endCommandBuffer k) = 0 →
      res (.queueSubmit k) = 0 → res (.waitForFences k) ≠ 0 →
      (stepLoop res n).2 = some (.vkError (.waitForFences k) (res (.waitForFences k))) ∧
      countSubmits (stepLoop res n).1 = k + 1) ∧
    ((∀ s, s < n → stepOk res s) → stepLoop res n = (okTrace n n 0, none)) := by
  refine ⟨rfl, fun t ht => wait_timeout_aux res n n 0 t ht, ?_, ?_⟩
  · intro k hk hpre hb he hq hw
    have h := stepLoopAux_wait_fail res n n 0 k (Nat.zero_le k) (by omega)
      (fun j hj1 hj2 => hpre j hj2) hb he hq hw
    refine ⟨h.1, ?_⟩
    have h2 := h.2
    unfold stepLoop
    omega
  · intro hall
    exact stepLoopAux_allOk res n n 0 (fun j hj => by simpa using hall j (by omega))

/-- Platform where every `run`-side call succeeds. -/
def resZ : RunCall → Nat := fun _ => 0

/-- Platform where step 1's fence wait returns `VkResult` 2 (`VK_TIMEOUT`)
and every other call succeeds. -/
def resW1 : RunCall → Nat := fun c =>
  match c with
  | .waitForFences 1 => 2
  | _ => 0

theorem c10_fence_wait_semantics_witness :
    (stepLoop resW1 2).2 = some (.vkError (.waitForFences 1) 2) ∧
    countSubmits (stepLoop resW1 2).1 = 2 := by
  have h := (c10_fence_wait_semantics 2 resW1).2.2.1 1 (by omega)
    (fun j hj => by
      have hj0 : j = 0 := by omega
      subst hj0
      exact ⟨rfl, rfl, rfl, rfl, rfl⟩)
    rfl rfl rfl (by decide)
  exact ⟨h.1, h.2⟩

/-- Claim C5: with every checked call succeeding and `n < 2^32`, the step
loop performs exactly `n` dispatches, one per `pivot_index` `0 .. n-1` in
strictly increasing order (the dispatch list is literally `List.range n`
mapped), each pushing the constants `(dimension = n, vector_count = n,
pivot_index = s)` and launching `(n - s + 31) / 32 = ceil((n - s) / 32)`
work groups of 32 invocations, which cover all `n - s` remaining vector
indices; and the loop completes without error. -/
theorem c5_dispatch_sequence (n : Nat) (res : RunCall → Nat) (hn : n < 4294967296)
    (hok : ∀ c, res c = 0) :
    dispatchesOf (stepLoop res n).1 =
      (List.range n).map (fun s => ⟨n, n, s, (n - s + 31) / 32⟩) ∧
    (∀ s, s < n → n - s ≤ 32 * ((n - s + 31) / 32)) ∧
    (stepLoop res n).2 = none := by
  have hall : stepLoop res n = (okTrace n n 0, none) :=
    stepLoopAux_allOk res n n 0 (fun j hj => ⟨hok _, hok _, hok _, hok _, hok _⟩)
  rw [hall]
  refine ⟨?_, fun s hs => by omega, rfl⟩
  rw [show (okTrace n n 0, (none : Option RunError)).1 = okTrace n n 0 from rfl,
    dispatchesOf_okTrace n n 0]
  apply List.map_congr_left
  intro a ha
  have han : a < n := List.mem_range.mp ha
  unfold mkDispatch
  rw [Nat.zero_add, Nat.mod_eq_of_lt hn]
  have hgrp : (n - a) / 32 + (if (n - a) % 32 > 0 then 1 else 0) = (n - a + 31) / 32 := by
    split_ifs <;> omega
  rw [hgrp]

theorem c5_dispatch_sequence_witness :
    dispatchesOf (stepLoop resZ 2).1 =
      (List.range 2).map (fun s => ⟨2, 2, s, (2 - s + 31) / 32⟩) ∧
    (stepLoop resZ 2).2 = none := by
  have h := c5_dispatch_sequence 2 resZ (by omega) (fun _ => rfl)
  exact ⟨h.1, h.2.2⟩

/-! ## Claim C6: staging layout and orientation -/

theorem getD_map_range {β : Type} (f : Nat → β) (m k : Nat) (d : β) (hk : k < m) :
    ((List.range m).map f).getD k d = f k := by
  rw [List.getD_eq_getElem?_getD, List.getElem?_map, List.getElem?_range hk]
  rfl

theorem flat_div (n v c : Nat) (hc : c < n) : (v * n + c) / n = v := by
  have hn : 0 < n := by omega
  rw [Nat.mul_comm v n, Nat.mul_add_div hn, Nat.div_eq_of_lt hc]
  omega

theorem flat_mod (n v c : Nat) (hc : c < n) : (v * n + c) % n = c := by
  rw [Nat.mul_comm v n, Nat.mul_add_mod, Nat.mod_eq_of_lt hc]

theorem upload_getD {α : Type} [Inhabited α] (n : Nat) (M : List (List α)) (cols : Bool)
    (v c : Nat) (hv : v < n) (hc : c < n) :
    (upload n M cols).getD (v * n + c) default = if cols then ent M c v else ent M v c := by
  have hk : v * n + c < n * n := by
    have h1 : v * n + c < (v + 1) * n := by rw [Nat.succ_mul]; omega
    exact lt_of_lt_of_le h1 (Nat.mul_le_mul_right n hv)
  unfold upload
  rw [getD_map_range _ _ _ _ hk, flat_div n v c hc, flat_mod n v c hc]

theorem download_upload {α : Type} [Inhabited α] (n : Nat) (M : List (List α)) (cols : Bool)
    (hlen : M.length = n) (hrows : ∀ row ∈ M, row.length = n) :
    download n (upload n M cols) cols = M := by
  unfold download
  apply List.ext_getElem
  · simp [hlen]
  · intro a h1 h2
    have ha : a < n := by simpa using h1
    simp only [List.getElem_map, List.getElem_range]
    apply List.ext_getElem
    · simp [hrows _ (List.getElem_mem h2)]
    · intro b h3 h4
      have hb : b < n := by simpa using h3
      simp only [List.getElem_map, List.getElem_range]
      have hent : ent M a b = M[a][b] := by
        have h5 : M.getD a [] = M[a] := by
          rw [List.getD_eq_getElem?_getD, List.getElem?_eq_getElem h2]
          rfl
        unfold ent
        rw [h5, List.getD_eq_getElem?_getD, List.getElem?_eq_getElem h4]
        rfl
      by_cases hcols : cols = true
      · rw [if_pos hcols, if_pos hcols, upload_getD n M cols b a hb ha, if_pos hcols, hent]
      · rw [if_neg hcols, if_neg hcols, upload_getD n M cols a b ha hb, if_neg hcols, hent]

/-- Claim C6: during upload, coordinate `c` of vector `v` lands at
flattened device offset `v * n + c`, read from `matrix[c][v]` when
`vectors_as_columns` and from `matrix[v][c]` otherwise; the download loop
applies the exact inverse transform, so downloading what was uploaded
restores the caller's matrix cell for cell - the basis comes back in the
orientation it was given. -/
theorem c6_staging_orientation {α : Type} [Inhabited α] (n : Nat) (M : List (List α))
    (cols : Bool) (hlen : M.length = n) (hrows : ∀ row ∈ M, row.length = n) :
    (∀ v c, v < n → c < n →
      (upload n M cols).getD (v * n + c) default =
        if cols then ent M c v else ent M v c) ∧
    download n (upload n M cols) cols = M :=
  ⟨fun v c hv hc => upload_getD n M cols v c hv hc,
   download_upload n M cols hlen hrows⟩

theorem c6_staging_orientation_witness :
    download 2 (upload 2 [[1, 2], [3, 4]] true) true = [[(1 : Nat), 2], [3, 4]] :=
  (c6_staging_orientation 2 [[(1 : Nat), 2], [3, 4]] true rfl (by decide)).2
